import Mathlib

/-!
Verification of the repo2docker fork's buildpack composition engine
(`repo2docker/buildpacks/composable.py`), the Docker CLI engine adapter
(`repo2docker/docker_utils.py`) and the CLI configuration phase
(`repo2docker/__main__.py`), as shallow Lean embeddings.

Python-level conventions used throughout:
* fallible Python code is embedded in `Except`; an uncaught exception
  (NameError, ValueError) or a `sys.exit` is an `Except.error`;
* Python `dict`s are association lists with Python 3.7 insertion-order
  semantics: assigning to an existing key replaces the value in place,
  assigning to a fresh key appends;
* Python `set`s of strings are `Finset String`.
-/

namespace Repo2Docker

/-- An uncaught Python exception. `nameError id` models a `NameError` raised
when the undefined identifier `id` is referenced; `valueError` models a
`ValueError` (e.g. tuple unpacking of the wrong arity). -/
inductive PyError where
  | nameError (id : String)
  | valueError (msg : String)
deriving DecidableEq, Repr

/-- Outcome channel for the CLI configuration phase: `exited code` models
`sys.exit(code)`, `raised e` an uncaught Python exception. -/
inductive Halt where
  | exited (code : Nat)
  | raised (e : PyError)
deriving DecidableEq, Repr

/-! ### Python dict operations (insertion-ordered association lists) -/

/-- `d[k] = v` on a Python dict: replace the value of an existing key in
place (keys are untouched), otherwise append the new binding at the end. -/
def setItem (d : List (String × String)) (k v : String) :
    List (String × String) :=
  if ∃ p ∈ d, p.1 = k then
    d.map (fun p => (p.1, if p.1 = k then v else p.2))
  else
    d ++ [(k, v)]

/-- `d.update(e)` on Python dicts: assign each binding of `e` into `d` in
`e`'s order (so on a key collision the entry of `e` wins). -/
def dictUpdate (d e : List (String × String)) : List (String × String) :=
  e.foldl (fun acc p => setItem acc p.1 p.2) d

/-- `d[k]` / `d.get(k)` on a Python dict: the value of the first entry whose
key is `k` (association lists built with `setItem` hold each key once). -/
def lookupStr (k : String) : List (String × String) → Option String
  | [] => none
  | p :: tl => if k = p.1 then some p.2 else lookupStr k tl

/-- First-defined choice on `Option String`, the shape in which dict merges
are described. -/
def optOr (a b : Option String) : Option String :=
  match a with
  | some v => some v
  | none => b

/-! ### Composition engine: `ComposableBuildPack` (composable.py)

`BPClass` models a buildpack class of the catalog at composable.py line 18:
its name, its `_order` attribute (the sort key of line 26; the attribute is
defined in `buildpacks/base.py`, outside these sources, so the concrete
numbers below are placeholders — no theorem depends on them), and the chain
of base classes up to but excluding `BuildPack`. -/
structure BPClass where
  name : String
  order : Nat
  bases : List String
deriving DecidableEq, Repr

/-- Result of `ComposableBuildPack.detect`: the `self.buildpacks` list it
leaves behind and the method's return value. -/
structure DetectResult where
  buildpacks : List BPClass
  returned : Bool
deriving DecidableEq, Repr

/-- The `for buildpack in [...]` loop of composable.py lines 18–24, for the
repository described by the detection predicate `d`.  For each catalog class
whose `detect()` is true the class is appended to `self.buildpacks`; the very
next statement is the backward-compatibility inheritance walk
`while buidpack.__bases__[0] is not BuildPack:` — but `buidpack` (and, in its
body, `buidpack_class`) is an undefined identifier (the loop variable is
spelled `buildpack`), so Python raises `NameError` as soon as any catalog
class detects. -/
def detectLoop (d : BPClass → Bool) :
    List BPClass → List BPClass → Except PyError (List BPClass)
  | [], acc => Except.ok acc
  | bp :: rest, acc =>
    if d bp then
      let _acc' := acc ++ [bp]
      Except.error (PyError.nameError "buidpack")
    else
      detectLoop d rest acc

/-- `ComposableBuildPack.detect` (composable.py lines 17–32).  After the
catalog loop, a non-empty `self.buildpacks` is deduplicated and sorted by
`sorted(set(self.buildpacks), key=operator.attrgetter("_order"))` — but the
module never imports `operator`, so that line raises `NameError`; when the
list is empty the sort is skipped, the buildpack list is printed, and the
method returns `True` unconditionally. -/
def ComposableBuildPack.detect (catalog : List BPClass) (d : BPClass → Bool) :
    Except PyError DetectResult :=
  match detectLoop d catalog [] with
  | Except.error e => Except.error e
  | Except.ok bps =>
    if bps.isEmpty then
      Except.ok { buildpacks := bps, returned := true }
    else
      Except.error (PyError.nameError "operator")

/-- The catalog of composable.py line 18, in its source order:
`[BaseImage, CondaBuildPack, PythonBuildPack, RBuildPack,
JuliaProjectTomlBuildPack]`, with each class's base-class chain up to
`BuildPack` (from the buildpack class hierarchy; immaterial to the theorems
below, which never reach the inheritance walk's body). -/
def catalogSrc : List BPClass :=
  [ { name := "BaseImage", order := 1, bases := [] },
    { name := "CondaBuildPack", order := 2, bases := ["BaseImage"] },
    { name := "PythonBuildPack", order := 3,
      bases := ["CondaBuildPack", "BaseImage"] },
    { name := "RBuildPack", order := 4,
      bases := ["PythonBuildPack", "CondaBuildPack", "BaseImage"] },
    { name := "JuliaProjectTomlBuildPack", order := 5,
      bases := ["PythonBuildPack", "CondaBuildPack", "BaseImage"] } ]

/-! ### Merged-contract getters (composable.py lines 34–98)

`BuildPackInst` is a constructed buildpack instance as seen through the
getter contract: each `get_x()` of the instance is a field.  Script
sequences are `(user, script)` pairs as in the buildpack base contract. -/
structure BuildPackInst where
  packages : Finset String
  base_packages : Finset String
  build_env : List (String × String)
  env : List (String × String)
  path : List String
  build_script_files : List (String × String)
  preassemble_script_files : List (String × String)
  build_scripts : List (String × String)
  preassemble_scripts : List (String × String)
  assemble_scripts : List (String × String)
  post_build_scripts : List String

/-- `get_packages` (lines 34–38): start from `set()`, fold `|=` over
`self.buildpacks` in order. -/
def ComposableBuildPack.get_packages (bps : List BuildPackInst) :
    Finset String :=
  bps.foldl (fun acc bp => acc ∪ bp.packages) ∅

/-- `get_base_packages` (lines 40–44). -/
def ComposableBuildPack.get_base_packages (bps : List BuildPackInst) :
    Finset String :=
  bps.foldl (fun acc bp => acc ∪ bp.base_packages) ∅

/-- `get_build_env` (lines 46–50): start from `[]`, fold `+=` over
`self.buildpacks` in order. -/
def ComposableBuildPack.get_build_env (bps : List BuildPackInst) :
    List (String × String) :=
  bps.foldl (fun acc bp => acc ++ bp.build_env) []

/-- `get_env` (lines 52–56). -/
def ComposableBuildPack.get_env (bps : List BuildPackInst) :
    List (String × String) :=
  bps.foldl (fun acc bp => acc ++ bp.env) []

/-- `get_path` (lines 58–62). -/
def ComposableBuildPack.get_path (bps : List BuildPackInst) : List String :=
  bps.foldl (fun acc bp => acc ++ bp.path) []

/-- `get_build_script_files` (lines 64–68): start from `{}`, fold
`scripts.update(...)` over `self.buildpacks` in order. -/
def ComposableBuildPack.get_build_script_files (bps : List BuildPackInst) :
    List (String × String) :=
  bps.foldl (fun acc bp => dictUpdate acc bp.build_script_files) []

/-- `get_build_scripts` (lines 70–74). -/
def ComposableBuildPack.get_build_scripts (bps : List BuildPackInst) :
    List (String × String) :=
  bps.foldl (fun acc bp => acc ++ bp.build_scripts) []

/-- `get_preassemble_script_files` (lines 76–80). -/
def ComposableBuildPack.get_preassemble_script_files
    (bps : List BuildPackInst) : List (String × String) :=
  bps.foldl (fun acc bp => dictUpdate acc bp.preassemble_script_files) []

/-- `get_preassemble_scripts` (lines 82–86). -/
def ComposableBuildPack.get_preassemble_scripts (bps : List BuildPackInst) :
    List (String × String) :=
  bps.foldl (fun acc bp => acc ++ bp.preassemble_scripts) []

/-- `get_assemble_scripts` (lines 88–92). -/
def ComposableBuildPack.get_assemble_scripts (bps : List BuildPackInst) :
    List (String × String) :=
  bps.foldl (fun acc bp => acc ++ bp.assemble_scripts) []

/-- `get_post_build_scripts` (lines 94–98). -/
def ComposableBuildPack.get_post_build_scripts (bps : List BuildPackInst) :
    List String :=
  bps.foldl (fun acc bp => acc ++ bp.post_build_scripts) []

/-! ### Engine adapter: `DockerCLI.build` (docker_utils.py lines 21–90)

The generator's read loop (lines 80–84) is

    while True:
        line = p.stdout.readline()
        if p.poll() is not None:
            break
        yield {"stream": line}

The child process is modelled by `lines`, the sequence of output lines it
writes (readline returns them in order, then the empty string at EOF), and
`rc`, its exit status.  The one piece of timing the loop observes is when
`p.poll()` stops returning `None`; the schedule parameter `k` is the number
of loop iterations for which `poll()` still returns `None`.  Any `k` from
`0` (exit already visible at the first poll) upward is a possible schedule
of the same child process. -/

/-- A build event yielded by the generator: `{"stream": line}` or
`{"error": line}`. -/
inductive BuildEvent where
  | stream (line : String)
  | error (line : String)
deriving DecidableEq, Repr

/-- Whether an event is an `error` event. -/
def BuildEvent.isErr : BuildEvent → Bool
  | BuildEvent.error _ => true
  | _ => false

/-- The read loop (lines 80–84), reading from position `i` with `k`
iterations left before `p.poll()` reports the exit: each iteration reads a
line (the empty string once the stream is exhausted); at iteration `k` the
poll is not `None`, the loop breaks, and the line read in that iteration is
left in the variable `line` without having been yielded.  Returns the
yielded stream events and the final value of `line`. -/
def buildLoop (lines : List String) : Nat → Nat → List BuildEvent × String
  | 0, i => ([], lines.getD i "")
  | k + 1, i =>
    let line := lines.getD i ""
    let rest := buildLoop lines (k) (i + 1)
    (BuildEvent.stream line :: rest.1, rest.2)

/-- The event sequence of `DockerCLI.build` (lines 71–88): the stream events
yielded by the read loop, then — when `rc = p.poll()` is non-zero (line 87) —
one `{"error": line}` event carrying the last value read into `line`. -/
def DockerCLI.build (lines : List String) (rc : Int) (k : Nat) :
    List BuildEvent :=
  let r := buildLoop lines k 0
  r.1 ++ (if rc ≠ 0 then [BuildEvent.error r.2] else [])

/-- Whether `shutil.rmtree(tempdir)` (line 90) executes.  `build` is a
Python generator and line 90 sits after the final yield with no
`try/finally`: the statements after a yield run only when the consumer
advances the iterator past that yield.  `consumed` is the number of times
the consumer advances the generator; the cleanup line runs only if the
consumer advances past the last of the yielded events (abandoning the
generator earlier raises `GeneratorExit` at the paused yield, which
propagates without executing line 90). -/
def buildCleanupRuns (lines : List String) (rc : Int) (k : Nat)
    (consumed : Nat) : Bool :=
  (DockerCLI.build lines rc k).length < consumed

/-! ### CLI configuration phase: `make_r2d` (`__main__.py`)

`MimicDockerEnvHandling.__call__` (lines 43–60) and the post-parse
configuration/validation body of `make_r2d` (lines 256–395). -/

/-- `MimicDockerEnvHandling.__call__` (lines 43–60): one `--env VALUES`
occurrence appended onto the destination list `dest`.  `osEnviron` is
`os.environ`. -/
def mimicDockerEnvHandling (osEnviron : String → Option String)
    (dest : List String) (values : String) : List String :=
  if '=' ∈ values.data then
    dest ++ [values]
  else
    match osEnviron values with
    | some v => dest ++ [values ++ "=" ++ v]
    | none => dest

/-- The parsed command-line arguments consumed by the body of `make_r2d`
(after argparse): only the fields the configuration/validation phase reads.
`user_id = none` models an absent `--user-id`; `run`/`build` are already the
booleans left by `--no-run` / `--no-build`. -/
structure Args where
  repo : String
  editable : Bool
  build : Bool
  run : Bool
  push : Bool
  cmd : List String
  volumes : List String
  ports : List String
  all_ports : Bool
  user_id : Option Int
  environment : List String
  clean : Bool
deriving DecidableEq, Repr

/-- The configured `Repo2Docker` object as `make_r2d` returns it: the fields
the validation phase writes or reads.  (`volumes` is the `r2d.volumes` dict;
fields that are only copied through without participating in any check —
labels, build args, memory limit, subdir, cache_from, engine, user_name,
target_repo_dir — are omitted.) -/
structure R2DConfig where
  volumes : List (String × String)
  run : Bool
  push : Bool
  dry_run : Bool
  runCmd : List String
  ports : List String
  all_ports : Bool
  user_id : Int
  environment : List String
  cleanup_checkout : Bool
deriving DecidableEq, Repr

/-- `sys.exit(1)` guarded by a condition: the shape of every configuration
check in `make_r2d`. -/
def exitIf (b : Bool) : Except Halt Unit :=
  if b then Except.error (Halt.exited 1) else Except.ok ()

/-- Sequencing in the `Except Halt` embedding of `make_r2d`: a `sys.exit` or
an uncaught exception in the first part skips the rest. -/
def andThen {α β : Type} (x : Except Halt α) (f : α → Except Halt β) :
    Except Halt β :=
  match x with
  | Except.error e => Except.error e
  | Except.ok a => f a

/-- Python `str.split(":")` over the characters of the string: pieces are
the maximal (possibly empty) runs between colons, so `"".split(":") == [""]`
and `"a:b:c".split(":") == ["a", "b", "c"]`. -/
def splitColonAux : List Char → List Char → List String
  | [], acc => [String.mk acc.reverse]
  | c :: rest, acc =>
    if c = ':' then String.mk acc.reverse :: splitColonAux rest []
    else splitColonAux rest (c :: acc)

/-- `v.split(":")`. -/
def splitColon (v : String) : List String :=
  splitColonAux v.data []

/-- `src, dest = v.split(":")` (line 320): split, then tuple unpacking of
arity 2 — any other arity raises `ValueError`. -/
def splitVolume (v : String) : Except Halt (String × String) :=
  match splitColon v with
  | [src, dest] => Except.ok (src, dest)
  | _ => Except.error (Halt.raised (PyError.valueError "unpack"))

/-- The `for v in args.volumes` loop (lines 319–321): each `-v src:dest`
entry is split and assigned into the `r2d.volumes` dict. -/
def addVolumes (cfg : List (String × String)) :
    List String → Except Halt (List (String × String))
  | [] => Except.ok cfg
  | v :: rest =>
    andThen (splitVolume v) (fun sd => addVolumes (setItem cfg sd.1 sd.2) rest)

/-- Lines 347–348 of `__main__.py`: `if args.user_id: r2d.user_id =
args.user_id` — Python truthiness, so both an absent `--user-id` and an
explicit `--user-id 0` leave the default (the invoking user's uid) in
place. -/
def effectiveUserId (argUid : Option Int) (invokingUid : Int) : Int :=
  match argUid with
  | some u => if u = 0 then invokingUid else u
  | none => invokingUid

/-- The post-parse body of `make_r2d` (`__main__.py` lines 256–395),
embedding exactly the statements that read or guard the fields of
`R2DConfig`, in source order:
* lines 278–291: `--editable` mounts `abspath(repo)` at `"."` when the repo
  is a directory, else exits 1;
* lines 301–309: `dry_run = not args.build`; a dry run forces `run` and
  `push` to `False`;
* lines 314–317: exit 1 if `r2d.volumes` is non-empty while `run` is off —
  note that at this point `r2d.volumes` holds only the `--editable` mount;
* lines 319–321: only now are the `-v` volumes copied into `r2d.volumes`;
* lines 325–342: the three port checks (`-P` without run, `-p` without run,
  `-p` without a run command), each exiting 1;
* lines 347–348: `if args.user_id:` — Python truthiness, so an explicit
  `--user-id 0` is falsy and leaves the default in place;
* lines 351–360: exit 1 when the resulting user id is 0 outside dry-run;
* lines 370–372: exit 1 when `--env` entries exist while `run` is off;
* lines 386–390: a repo that exists locally is never cleaned up.
External facts are parameters: `isdir`/`pathExists`/`absPath` model
`os.path`, and `invokingUid` models the `Repo2Docker` default primary user
id.  Modelled from the spec: `app.py` (the `Repo2Docker` traitlets class) is
not among the sources; per the spec and the message printed at lines
353–358 ("The uid … of the user invoking repo2docker is used … by
default"), the default user id mirrors the invoking user.
`validate_and_generate_port_mapping` (line 344) lives in `utils.py`, also
outside the sources; no claim below concerns the mapping it produces, so the
ports list is carried through unchanged. -/
def make_r2d (isdir pathExists : String → Bool) (absPath : String → String)
    (invokingUid : Int) (args : Args) : Except Halt R2DConfig :=
  andThen
    (if args.editable then
      (if isdir args.repo then Except.ok (setItem [] (absPath args.repo) ".")
       else Except.error (Halt.exited 1))
     else Except.ok []) (fun volumes1 =>
  let dry_run := !args.build
  let runFlag := if dry_run then false else args.run
  let pushFlag := if dry_run then false else args.push
  andThen (exitIf (!volumes1.isEmpty && !runFlag)) (fun _ =>
  andThen (addVolumes volumes1 args.volumes) (fun volumes2 =>
  let runCmd := args.cmd
  andThen (exitIf (args.all_ports && !runFlag)) (fun _ =>
  andThen (exitIf (!args.ports.isEmpty && !runFlag)) (fun _ =>
  andThen (exitIf (!args.ports.isEmpty && runCmd.isEmpty)) (fun _ =>
  let user_id := effectiveUserId args.user_id invokingUid
  andThen (exitIf (user_id == 0 && !dry_run)) (fun _ =>
  andThen (exitIf (!args.environment.isEmpty && !runFlag)) (fun _ =>
  Except.ok
    { volumes := volumes2
      run := runFlag
      push := pushFlag
      dry_run := dry_run
      runCmd := runCmd
      ports := args.ports
      all_ports := args.all_ports
      user_id := user_id
      environment := args.environment
      cleanup_checkout := if pathExists args.repo then false else args.clean }
  ))))))))

/-! ## Helper lemmas -/

@[simp]
theorem optOr_none_left (b : Option String) : optOr none b = b := rfl

@[simp]
theorem optOr_some (v : String) (b : Option String) :
    optOr (some v) b = some v := rfl

theorem optOr_none_right (a : Option String) : optOr a none = a := by
  cases a <;> rfl

theorem optOr_assoc (a b c : Option String) :
    optOr (optOr a b) c = optOr a (optOr b c) := by
  cases a <;> rfl

@[simp]
theorem andThen_ok {α β : Type} (a : α) (f : α → Except Halt β) :
    andThen (Except.ok a) f = f a := rfl

@[simp]
theorem andThen_error {α β : Type} (e : Halt) (f : α → Except Halt β) :
    andThen (Except.error e) f = Except.error e := rfl

theorem andThen_eq_ok {α β : Type} {x : Except Halt α}
    {f : α → Except Halt β} {b : β} (h : andThen x f = Except.ok b) :
    ∃ a, x = Except.ok a ∧ f a = Except.ok b := by
  cases x with
  | error e => simp [andThen] at h
  | ok a => exact ⟨a, rfl, h⟩

theorem exitIf_eq_ok {b : Bool} {u : Unit} (h : exitIf b = Except.ok u) :
    b = false := by
  cases b
  · rfl
  · simp [exitIf] at h

@[simp]
theorem lookupStr_nil (k : String) : lookupStr k [] = none := rfl

theorem lookupStr_append (k : String) (l1 l2 : List (String × String)) :
    lookupStr k (l1 ++ l2) = optOr (lookupStr k l1) (lookupStr k l2) := by
  induction l1 with
  | nil => simp
  | cons p tl ih =>
    by_cases h : k = p.1 <;> simp [lookupStr, h, ih]

theorem lookupStr_map_ne (k v k' : String) (hk : ¬ k' = k) :
    ∀ d : List (String × String),
      lookupStr k' (d.map (fun p => (p.1, if p.1 = k then v else p.2)))
        = lookupStr k' d
  | [] => rfl
  | p :: tl => by
    have ih := lookupStr_map_ne k v k' hk tl
    by_cases hp : k' = p.1
    · have hpk : ¬ p.1 = k := by
        rw [← hp]
        exact hk
      simp [lookupStr, hp, hpk]
    · simp [lookupStr, hp, ih]

theorem lookupStr_map_mem (k v : String) :
    ∀ d : List (String × String), (∃ p ∈ d, p.1 = k) →
      lookupStr k (d.map (fun p => (p.1, if p.1 = k then v else p.2)))
        = some v
  | [], h => by simp at h
  | p :: tl, h => by
    by_cases hp : k = p.1
    · have hfp : (p.1, if p.1 = k then v else p.2) = (p.1, v) := by
        rw [if_pos hp.symm]
      simp only [List.map_cons, hfp, lookupStr]
      rw [if_pos hp]
      rw [if_pos hp.symm]
    · have htl : ∃ q ∈ tl, q.1 = k := by
        rcases h with ⟨q, hq, hqk⟩
        rcases List.mem_cons.mp hq with rfl | hmem
        · exact absurd hqk.symm hp
        · exact ⟨q, hmem, hqk⟩
      simp [lookupStr, hp, lookupStr_map_mem k v tl htl]

theorem lookupStr_eq_none (k : String) :
    ∀ d : List (String × String), (¬ ∃ p ∈ d, p.1 = k) → lookupStr k d = none
  | [], _ => rfl
  | p :: tl, h => by
    have hp : ¬ k = p.1 := fun hh =>
      h ⟨p, List.mem_cons_self _ _, hh.symm⟩
    have htl : ¬ ∃ q ∈ tl, q.1 = k := by
      rintro ⟨q, hq, hqk⟩
      exact h ⟨q, List.mem_cons_of_mem _ hq, hqk⟩
    simp [lookupStr, hp, lookupStr_eq_none k tl htl]

theorem lookupStr_setItem (d : List (String × String)) (k v k' : String) :
    lookupStr k' (setItem d k v)
      = if k' = k then some v else lookupStr k' d := by
  unfold setItem
  by_cases hd : ∃ p ∈ d, p.1 = k
  · rw [if_pos hd]
    by_cases hk : k' = k
    · rw [if_pos hk, hk, lookupStr_map_mem k v d hd]
    · rw [if_neg hk, lookupStr_map_ne k v k' hk d]
  · rw [if_neg hd, lookupStr_append]
    by_cases hk : k' = k
    · rw [if_pos hk, hk, lookupStr_eq_none k d hd]
      simp [lookupStr]
    · have hone : lookupStr k' [(k, v)] = none := by simp [lookupStr, hk]
      rw [hone, optOr_none_right, if_neg hk]

theorem lookupStr_dictUpdate (k : String) :
    ∀ (e d : List (String × String)),
      lookupStr k (dictUpdate d e)
        = optOr (lookupStr k e.reverse) (lookupStr k d)
  | [], d => by simp [dictUpdate]
  | p :: e', d => by
    have step : dictUpdate d (p :: e') = dictUpdate (setItem d p.1 p.2) e' :=
      rfl
    rw [step, lookupStr_dictUpdate k e' (setItem d p.1 p.2), lookupStr_setItem,
      List.reverse_cons, lookupStr_append, optOr_assoc]
    congr 1
    by_cases hk : k = p.1 <;> simp [lookupStr, hk]

theorem lookupStr_foldl_dictUpdate {α : Type}
    (g : α → List (String × String)) (k : String) :
    ∀ (l : List α) (d : List (String × String)),
      lookupStr k (l.foldl (fun acc e => dictUpdate acc (g e)) d)
        = optOr (lookupStr k (l.map g).flatten.reverse) (lookupStr k d)
  | [], d => by simp
  | a :: tl, d => by
    rw [List.foldl_cons,
      lookupStr_foldl_dictUpdate g k tl (dictUpdate d (g a)),
      lookupStr_dictUpdate, List.map_cons, List.flatten_cons,
      List.reverse_append, lookupStr_append, optOr_assoc]

theorem mem_foldl_union (g : BuildPackInst → Finset String) (x : String) :
    ∀ (l : List BuildPackInst) (s : Finset String),
      x ∈ l.foldl (fun acc bp => acc ∪ g bp) s
        ↔ x ∈ s ∨ ∃ bp ∈ l, x ∈ g bp
  | [], s => by simp
  | a :: tl, s => by
    rw [List.foldl_cons, mem_foldl_union g x tl (s ∪ g a)]
    simp [Finset.mem_union, or_assoc]

theorem foldl_append_map {α β : Type} (g : α → List β) :
    ∀ (l : List α) (s : List β),
      l.foldl (fun acc e => acc ++ g e) s = s ++ (l.map g).flatten
  | [], s => by simp
  | a :: tl, s => by
    rw [List.foldl_cons, foldl_append_map g tl (s ++ g a)]
    simp [List.append_assoc]

theorem buildLoop_snd (lines : List String) :
    ∀ (k i : Nat), (buildLoop lines k i).2 = lines.getD (k + i) ""
  | 0, i => by simp [buildLoop]
  | k + 1, i => by
    have ih := buildLoop_snd lines k (i + 1)
    simp only [buildLoop, ih]
    congr 1
    omega

theorem buildLoop_fst_no_error (lines : List String) :
    ∀ (k i : Nat), (buildLoop lines k i).1.filter BuildEvent.isErr = []
  | 0, _ => rfl
  | k + 1, i => by
    simp [buildLoop, BuildEvent.isErr, buildLoop_fst_no_error lines k (i + 1)]

/-! ## Claims -/

/-- C1: the claim says an empty detection set yields a typed "no buildpack
detected" (DetectionError) failure, never a successful empty build — but on
a repository where no catalog buildpack detects, `ComposableBuildPack.detect`
returns success (`True`) with an empty buildpack set and raises nothing. -/
theorem C1_empty_detection_reports_success :
    ComposableBuildPack.detect catalogSrc (fun _ => false)
      = Except.ok { buildpacks := [], returned := true } := rfl

/-- C2: the claim says composition deterministically produces the
deduplicated buildpack list sorted by priority — but on any repository where
some catalog buildpack detects (here `CondaBuildPack`), `detect` raises
`NameError` for the undefined identifier `buidpack` before any sorting can
happen (and the sort expression itself references the never-imported
`operator`), so no sorted list is ever produced. -/
theorem C2_detection_raises_nameerror :
    ComposableBuildPack.detect catalogSrc
        (fun bp => bp.name == "CondaBuildPack")
      = Except.error (PyError.nameError "buidpack") := rfl

/-- C4: the claim says that for a detected specialized variant each ancestor
variant is appended transitively and deduplicated — but when `RBuildPack`
(ancestors `PythonBuildPack`, `CondaBuildPack`, `BaseImage`) detects, the
inheritance walk's first condition references the undefined identifier
`buidpack`, so `detect` raises `NameError` and no ancestor is ever
appended. -/
theorem C4_inheritance_walk_raises_nameerror :
    ComposableBuildPack.detect catalogSrc
        (fun bp => bp.name == "RBuildPack")
      = Except.error (PyError.nameError "buidpack") := rfl

/-- C3: merge semantics of the merged contract, read in the order of
`self.buildpacks`: `packages` and `base_packages` are the set union of the
buildpacks' sets; `build_env`, `env`, `path` and the four ordered script
sequences are the concatenation of the buildpacks' sequences in list order;
`build_script_files` and `preassemble_script_files` merge with
last-write-wins on key collision (the merged value of a key is the value of
the last contribution, i.e. the first hit searching the concatenated
contributions from the right). -/
theorem C3_merge_semantics (bps : List BuildPackInst) (x kf : String) :
    (x ∈ ComposableBuildPack.get_packages bps
        ↔ ∃ bp ∈ bps, x ∈ bp.packages)
    ∧ (x ∈ ComposableBuildPack.get_base_packages bps
        ↔ ∃ bp ∈ bps, x ∈ bp.base_packages)
    ∧ ComposableBuildPack.get_build_env bps
        = (bps.map BuildPackInst.build_env).flatten
    ∧ ComposableBuildPack.get_env bps
        = (bps.map BuildPackInst.env).flatten
    ∧ ComposableBuildPack.get_path bps
        = (bps.map BuildPackInst.path).flatten
    ∧ ComposableBuildPack.get_build_scripts bps
        = (bps.map BuildPackInst.build_scripts).flatten
    ∧ ComposableBuildPack.get_preassemble_scripts bps
        = (bps.map BuildPackInst.preassemble_scripts).flatten
    ∧ ComposableBuildPack.get_assemble_scripts bps
        = (bps.map BuildPackInst.assemble_scripts).flatten
    ∧ ComposableBuildPack.get_post_build_scripts bps
        = (bps.map BuildPackInst.post_build_scripts).flatten
    ∧ lookupStr kf (ComposableBuildPack.get_build_script_files bps)
        = lookupStr kf (bps.map BuildPackInst.build_script_files).flatten.reverse
    ∧ lookupStr kf (ComposableBuildPack.get_preassemble_script_files bps)
        = lookupStr kf
            (bps.map BuildPackInst.preassemble_script_files).flatten.reverse := by
  refine ⟨?_, ?_, ?_, ?_, ?_, ?_, ?_, ?_, ?_, ?_, ?_⟩
  · simpa [ComposableBuildPack.get_packages] using
      mem_foldl_union BuildPackInst.packages x bps ∅
  · simpa [ComposableBuildPack.get_base_packages] using
      mem_foldl_union BuildPackInst.base_packages x bps ∅
  · simpa [ComposableBuildPack.get_build_env] using
      foldl_append_map BuildPackInst.build_env bps []
  · simpa [ComposableBuildPack.get_env] using
      foldl_append_map BuildPackInst.env bps []
  · simpa [ComposableBuildPack.get_path] using
      foldl_append_map BuildPackInst.path bps []
  · simpa [ComposableBuildPack.get_build_scripts] using
      foldl_append_map BuildPackInst.build_scripts bps []
  · simpa [ComposableBuildPack.get_preassemble_scripts] using
      foldl_append_map BuildPackInst.preassemble_scripts bps []
  · simpa [ComposableBuildPack.get_assemble_scripts] using
      foldl_append_map BuildPackInst.assemble_scripts bps []
  · simpa [ComposableBuildPack.get_post_build_scripts] using
      foldl_append_map BuildPackInst.post_build_scripts bps []
  · simpa [ComposableBuildPack.get_build_script_files, optOr_none_right] using
      lookupStr_foldl_dictUpdate BuildPackInst.build_script_files kf bps []
  · simpa [ComposableBuildPack.get_preassemble_script_files,
      optOr_none_right] using
      lookupStr_foldl_dictUpdate BuildPackInst.preassemble_script_files kf
        bps []

/-- C5: the claim says every line the child writes is emitted exactly once
as a progress event — but when the child writes two lines and its exit is
already visible at the first poll (schedule `k = 0`, exit status 0), the
read loop breaks in its first iteration, discarding the line it just read
and never reading the second: the build generator yields no events at
all. -/
theorem C5_lines_dropped :
    DockerCLI.build ["line one", "line two"] 0 0 = [] := rfl

/-- C6: for every child output `lines`, exit status `rc` and poll schedule
`k`: when `rc ≠ 0` the event stream contains exactly one error event, it is
the terminal event, and it carries the last line the read loop observed
(`lines.getD k ""`, the line read in the break iteration); when `rc = 0` no
error event is emitted. -/
theorem C6_single_terminal_error_event (lines : List String) (rc : Int)
    (k : Nat) :
    ((DockerCLI.build lines rc k).filter BuildEvent.isErr
        = if rc ≠ 0 then [BuildEvent.error (lines.getD k "")] else [])
    ∧ (rc ≠ 0 →
        (DockerCLI.build lines rc k).getLast?
          = some (BuildEvent.error (lines.getD k ""))) := by
  have hsnd : (buildLoop lines k 0).2 = lines.getD k "" := by
    simpa using buildLoop_snd lines k 0
  have hfst := buildLoop_fst_no_error lines k 0
  constructor
  · by_cases hrc : rc = 0
    · simp [DockerCLI.build, hrc, List.filter_append, hfst]
    · simp [DockerCLI.build, hrc, List.filter_append, hfst, hsnd,
        BuildEvent.isErr]
  · intro hrc
    simp only [DockerCLI.build, hsnd, if_pos hrc]
    rw [List.getLast?_concat]

/-- C6 witness: the theorem at the concrete stream `["a", "b"]`, exit
status 1, schedule `k = 1`. -/
theorem C6_single_terminal_error_event_witness :
    ((DockerCLI.build ["a", "b"] 1 1).filter BuildEvent.isErr
        = [BuildEvent.error "b"])
    ∧ ((DockerCLI.build ["a", "b"] 1 1).getLast?
        = some (BuildEvent.error "b")) := by
  have h := C6_single_terminal_error_event ["a", "b"] 1 1
  exact ⟨by simpa using h.1, by simpa using h.2 (by decide)⟩

/-- C7: the claim says the temporary build directory is removed even when
the consumer stops draining the event stream early — but the `shutil.rmtree`
line sits after the generator's final yield with no `try/finally` guard:
with events `[stream "a", stream "b"]` (schedule `k = 2`, exit 0) and a
consumer that advances the generator once and then abandons it, the cleanup
line never executes. -/
theorem C7_cleanup_skipped_on_early_stop :
    buildCleanupRuns ["a", "b"] 0 2 1 = false := rfl

/-- C8: the claim says requesting volume mounts with the run flag disabled
exits with code 1 before any engine call — but `make_r2d` on
`--no-run -v a:b repo` (no `--editable`) returns the configuration
successfully: the volumes/run check inspects `r2d.volumes` before the `-v`
entries are copied into it, so no exit occurs and the volume is mounted into
a non-running configuration. -/
theorem C8_volume_without_run_accepted :
    make_r2d (fun _ => false) (fun _ => false) id 1000
      { repo := "repo", editable := false, build := true, run := false,
        push := false, cmd := [], volumes := ["a:b"], ports := [],
        all_ports := false, user_id := none, environment := [],
        clean := true }
      = Except.ok
          { volumes := [("a", "b")], run := false, push := false,
            dry_run := false, runCmd := [], ports := [], all_ports := false,
            user_id := 1000, environment := [], cleanup_checkout := true } :=
  rfl

/-- C9 counterexample: an invocation that requests the primary container
user as uid 0 (`--user-id 0`) outside dry-run is not rejected: the
truthiness test `if args.user_id:` is falsy for 0, the default (the invoking
uid, here 1000) stays in place, and `make_r2d` returns the configuration
with user id 1000 instead of exiting with code 1. -/
theorem C9_root_request_silently_ignored :
    make_r2d (fun _ => false) (fun _ => false) id 1000
      { repo := "repo", editable := false, build := true, run := true,
        push := false, cmd := ["echo"], volumes := [], ports := [],
        all_ports := false, user_id := some 0, environment := [],
        clean := true }
      = Except.ok
          { volumes := [], run := true, push := false, dry_run := false,
            runCmd := ["echo"], ports := [], all_ports := false,
            user_id := 1000, environment := [], cleanup_checkout := true } :=
  rfl

/-- C9 (amended): an explicit `--user-id 0` is ignored by the truthiness
test, so the effective primary user id falls back to the invoking user's
uid, and the superuser check fires on that effective id: every configuration
`make_r2d` accepts outside dry-run has a non-zero primary user id. -/
theorem C9_accepted_config_has_nonroot_user
    (isdir pathExists : String → Bool) (absPath : String → String)
    (invokingUid : Int) (args : Args) (cfg : R2DConfig)
    (h : make_r2d isdir pathExists absPath invokingUid args = Except.ok cfg)
    (hdry : cfg.dry_run = false) : cfg.user_id ≠ 0 := by
  unfold make_r2d at h
  obtain ⟨v1, hv1, h⟩ := andThen_eq_ok h
  obtain ⟨u1, hc1, h⟩ := andThen_eq_ok h
  obtain ⟨v2, hv2, h⟩ := andThen_eq_ok h
  obtain ⟨u2, hc2, h⟩ := andThen_eq_ok h
  obtain ⟨u3, hc3, h⟩ := andThen_eq_ok h
  obtain ⟨u4, hc4, h⟩ := andThen_eq_ok h
  obtain ⟨u5, hc5, h⟩ := andThen_eq_ok h
  obtain ⟨u6, hc6, h⟩ := andThen_eq_ok h
  injection h with h
  subst h
  have hdry' : (!args.build) = false := hdry
  have hb := exitIf_eq_ok hc5
  rw [hdry'] at hb
  simp only [Bool.not_false, Bool.and_true] at hb
  intro hzero
  have hz : effectiveUserId args.user_id invokingUid = 0 := hzero
  rw [hz] at hb
  simp at hb

/-- C9 witness: the amended theorem applied to a concrete accepted
non-dry-run invocation. -/
theorem C9_accepted_config_has_nonroot_user_witness :
    ({ volumes := [], run := true, push := false, dry_run := false,
       runCmd := ["echo"], ports := [], all_ports := false, user_id := 1000,
       environment := [], cleanup_checkout := true } : R2DConfig).user_id
      ≠ 0 :=
  C9_accepted_config_has_nonroot_user (fun _ => false) (fun _ => false) id
    1000
    { repo := "repo", editable := false, build := true, run := true,
      push := false, cmd := ["echo"], volumes := [], ports := [],
      all_ports := false, user_id := none, environment := [], clean := true }
    { volumes := [], run := true, push := false, dry_run := false,
      runCmd := ["echo"], ports := [], all_ports := false, user_id := 1000,
      environment := [], cleanup_checkout := true }
    rfl rfl

/-- C10: `--env` handling: an argument containing `=` is appended
unmodified; a bare key is appended as `key=value` using the invoking
process's environment value when the key is defined there, and is silently
dropped — no error, no entry — when it is not. -/
theorem C10_env_argument_handling (osEnviron : String → Option String)
    (dest : List String) (s v : String) :
    ('=' ∉ s.data → osEnviron s = some v →
        mimicDockerEnvHandling osEnviron dest s = dest ++ [s ++ "=" ++ v])
    ∧ ('=' ∉ s.data → osEnviron s = none →
        mimicDockerEnvHandling osEnviron dest s = dest)
    ∧ ('=' ∈ s.data →
        mimicDockerEnvHandling osEnviron dest s = dest ++ [s]) := by
  refine ⟨fun h1 h2 => ?_, fun h1 h2 => ?_, fun h1 => ?_⟩
  · simp [mimicDockerEnvHandling, h1, h2]
  · simp [mimicDockerEnvHandling, h1, h2]
  · simp [mimicDockerEnvHandling, h1]

/-- C10 witness: the three cases at concrete inputs, through the theorem. -/
theorem C10_env_argument_handling_witness :
    (mimicDockerEnvHandling
        (fun key => if key = "FOO" then some "BAR" else none) [] "FOO"
      = ["FOO=BAR"])
    ∧ (mimicDockerEnvHandling
        (fun key => if key = "FOO" then some "BAR" else none) [] "MISSING"
      = [])
    ∧ (mimicDockerEnvHandling
        (fun key => if key = "FOO" then some "BAR" else none) [] "A=B"
      = ["A=B"]) := by
  have hf := C10_env_argument_handling
    (fun key => if key = "FOO" then some "BAR" else none) [] "FOO" "BAR"
  have hm := C10_env_argument_handling
    (fun key => if key = "FOO" then some "BAR" else none) [] "MISSING" "BAR"
  have ha := C10_env_argument_handling
    (fun key => if key = "FOO" then some "BAR" else none) [] "A=B" "BAR"
  exact ⟨hf.1 (by decide) (by simp), hm.2.1 (by decide) (by simp),
    ha.2.2 (by decide)⟩

end Repo2Docker
